import Mathlib

/-!
Shallow embedding of the execution and recovery engine of the AI4AI backend
(`backend/app/agents/automation/nova_act_agent.py`,
`backend/app/agents/automation/automation_agent.py`,
`backend/app/agents/coordinator/coordinator_agent.py`).

External effects (the Nova Act browser actuator, CrewAI / LLM calls, threads,
wall-clock time) are modelled as explicit oracle parameters: each function that
the Python code calls on an external service becomes a function argument whose
result the definitions consume exactly the way the Python code consumes the
call's return value.  Exceptions raised by external calls are modelled with an
explicit `exn` constructor and threaded through the same `try/except` structure
as the source.  Wall-clock durations (`execution_time`) and the opaque
`browser_state` dictionary are not modelled; no claim depends on them.
-/

namespace AI4AI

/-- Predicate `charsWithin pat l`: holds when the character list `pat` occurs contiguously
inside `l`. -/
def charsWithin (pat : List Char) : List Char → Bool
  | [] => pat.isPrefixOf ([] : List Char)
  | c :: rest => pat.isPrefixOf (c :: rest) || charsWithin pat rest

/-- Substring containment, the Lean counterpart of Python's `sub in s`. -/
def strContains (s sub : String) : Bool :=
  charsWithin sub.data s.data

/-- Python's `str.lower` (ASCII case folding suffices for the keyword sets used). -/
def strLower (s : String) : String :=
  ⟨s.data.map Char.toLower⟩

/-- Predicate `containsAny s ws`: holds when some keyword of `ws` occurs in `s`. -/
def containsAny (s : String) (ws : List String) : Bool :=
  ws.any (fun w => strContains s w)

/-- ASCII whitespace, for Python's `str.strip`. -/
def charWs (c : Char) : Bool :=
  c == ' ' || c == '\t' || c == '\n' || c == '\r'

/-- Python's `str.strip` (ASCII whitespace suffices for the parsed values). -/
def strStrip (s : String) : String :=
  ⟨((s.data.dropWhile charWs).reverse.dropWhile charWs).reverse⟩

/-- Python truthiness of an optional string attribute: the attribute exists and
is a non-empty string. -/
def optTruthy : Option String → Bool
  | none => false
  | some s => !(s == "")

/-- The object returned by `nova_act.act`: the attributes the agent reads
(`response`, `parsed_response`) plus `str(result)`.  `none` models a missing or
falsy attribute. -/
structure ActResponse where
  response : Option String
  parsed_response : Option String
  raw : String
  deriving Repr, DecidableEq

/-- Lines 513-519 of `nova_act_agent.py`: how `result_text` is parsed from the
actuator's result object. -/
def result_text_of (r : ActResponse) : String :=
  if optTruthy r.response then r.response.getD ""
  else if optTruthy r.parsed_response then r.parsed_response.getD ""
  else r.raw

/-- Embedding of `NovaActAgent._is_step_successful` (nova_act_agent.py lines 579-607).
The keyword scan of `result.response` runs first; only when it is inconclusive
does control reach the per-category rules. -/
def is_step_successful (result : ActResponse) (result_text : String)
    (nova_act_type : String) : Bool :=
  let keyword_verdict : Option Bool :=
    if optTruthy result.response then
      let response_lower := strLower (result.response.getD "")
      if containsAny response_lower ["success", "completed", "done", "finished"] then
        some true
      else if containsAny response_lower ["error", "failed", "cannot", "unable"] then
        some false
      else none
    else none
  match keyword_verdict with
  | some verdict => verdict
  | none =>
    if nova_act_type == "navigate" then true
    else if nova_act_type == "click" then
      !(strContains (strLower result_text) "error")
    else if nova_act_type == "input" then
      strContains (strLower result_text) "entered" ||
        strContains (strLower result_text) "filled"
    else
      !(strContains (strLower result_text) "error") &&
        !(strContains (strLower result_text) "failed")

/-- The record built by `NovaActExecutionResult.__init__` (nova_act_agent.py
lines 22-33).  `execution_time` and `browser_state` are not modelled. -/
structure NovaActExecutionResult where
  instruction : String
  status : String
  result_text : String
  error_message : Option String
  retry_count : Nat
  deriving Repr, DecidableEq

/-- One attempt's behaviour of the actuator call inside
`_execute_step_with_retry`: either the call raises (`exn`, caught by the
`except Exception` clause) or it returns a result object.  For an input step
with credentials the call goes through `_execute_input_step_with_credentials`,
which forwards the same unmodified `instruction` to `nova_act.act` and is
itself wrapped in the same `try`; its behaviour is absorbed by this oracle. -/
inductive AttemptOutcome where
  | exn (msg : String)
  | res (r : ActResponse)
  deriving Repr, DecidableEq

/-- Observable effects of one run of `_execute_step_with_retry`: the actuator
invocation of each attempt (with the instruction text passed to it) and the
`time.sleep` back-offs between attempts. -/
inductive StepEvent where
  | act (attempt : Nat) (instruction : String)
  | sleep (seconds : Nat)
  deriving Repr, DecidableEq

/-- The `for attempt in range(retry_count + 1)` loop of
`_execute_step_with_retry` (nova_act_agent.py lines 497-566), unrolled as
recursion on the remaining number of attempts (`fuel`); `attempt` is the
current 0-based index.  The `fuel = 0` case is the unreachable fall-through
after the loop (lines 569-577). -/
def stepRetryGo (acts : Nat → AttemptOutcome) (instruction nova_act_type : String)
    (retry_count : Nat) : Nat → Nat → NovaActExecutionResult × List StepEvent
  | _attempt, 0 =>
    (⟨instruction, "failed", "", some "Step failed after all retry attempts",
      retry_count⟩, [])
  | attempt, fuel + 1 =>
    match acts attempt with
    | .exn msg =>
      if attempt < retry_count then
        let rest := stepRetryGo acts instruction nova_act_type retry_count (attempt + 1) fuel
        (rest.1, .act attempt instruction :: .sleep 2 :: rest.2)
      else
        (⟨instruction, "failed", "",
          some s!"Step failed with exception after {retry_count + 1} attempts: {msg}",
          attempt⟩, [.act attempt instruction])
    | .res r =>
      let result_text := result_text_of r
      if is_step_successful r result_text nova_act_type then
        (⟨instruction, "success", result_text, none, attempt⟩,
          [.act attempt instruction])
      else if attempt < retry_count then
        let rest := stepRetryGo acts instruction nova_act_type retry_count (attempt + 1) fuel
        (rest.1, .act attempt instruction :: .sleep 2 :: rest.2)
      else
        (⟨instruction, "failed", result_text,
          some s!"Step failed after {retry_count + 1} attempts", attempt⟩,
          [.act attempt instruction])

/-- Embedding of `NovaActAgent._execute_step_with_retry` (nova_act_agent.py lines 492-577),
returning the step's result together with the trace of actuator invocations and
sleeps.  Every exception of the actuator call is caught by the source's
`try/except`, so the function always returns a result record. -/
def execute_step_with_retry (acts : Nat → AttemptOutcome)
    (instruction nova_act_type : String) (retry_count : Nat) :
    NovaActExecutionResult × List StepEvent :=
  stepRetryGo acts instruction nova_act_type retry_count 0 (retry_count + 1)

/-- The object returned by `nova_act.act(prompt, schema=BOOL_SCHEMA)` as read
by `_safe_act_with_bool_schema`: `matches_schema`, the `parsed_response`
attribute (outer `none` = attribute absent, `some none` = attribute present but
`None`/falsy, `some (some b)` = attribute with truth value `b`) and the
`response` attribute. -/
structure BoolSchemaResult where
  matches_schema : Bool
  parsed_response : Option (Option Bool)
  response : Option String
  deriving Repr, DecidableEq

/-- Behaviour of one BOOL_SCHEMA actuator call: raised exception or result. -/
inductive BoolActOutcome where
  | exn (msg : String)
  | res (r : BoolSchemaResult)
  deriving Repr, DecidableEq

/-- Embedding of `NovaActAgent._safe_act_with_bool_schema` (nova_act_agent.py lines
609-632): interpret a BOOL_SCHEMA call, defaulting to `false` on exceptions,
schema mismatches and unparsable responses. -/
def safe_act_with_bool_schema : BoolActOutcome → Bool
  | .exn _ => false
  | .res r =>
    if r.matches_schema then
      match r.parsed_response with
      | some v => v.getD false
      | none =>
        match r.response with
        | some s =>
          let t := strStrip (strLower s)
          if t == "true" || t == "yes" || t == "1" || t == "on" then true
          else if t == "false" || t == "no" || t == "0" || t == "off" then false
          else false
        | none => false
    else false

/-- The record built by `NovaActErrorDetection.__init__` (nova_act_agent.py
lines 48-66). -/
structure NovaActErrorDetection where
  has_difficulties : Bool
  is_stuck_in_loop : Bool
  can_proceed : Bool
  error_type : Option String
  suggestions : List String
  deriving Repr, DecidableEq

/-- The three BOOL_SCHEMA answers the actuator produces for one call of
`_detect_errors_with_bool_schema`: question 1 (difficulties on the page),
question 2 (stuck in a loop), question 3 (can proceed). -/
structure DetectionAnswers where
  q1 : BoolActOutcome
  q2 : BoolActOutcome
  q3 : BoolActOutcome
  deriving Repr, DecidableEq

/-- Embedding of `NovaActAgent._detect_errors_with_bool_schema` (nova_act_agent.py lines
428-490).  The function asks the actuator three BOOL_SCHEMA questions about the
live page and assembles the detection record from the three answers; it takes
no recorded attempt history.  Each answer is interpreted by
`_safe_act_with_bool_schema`, which never raises, so the source's outer
`except` branch (lines 482-490) is unreachable and not modelled. -/
def detect_errors_with_bool_schema (a : DetectionAnswers) : NovaActErrorDetection :=
  let has_difficulties := safe_act_with_bool_schema a.q1
  let is_stuck_in_loop := safe_act_with_bool_schema a.q2
  let can_proceed := safe_act_with_bool_schema a.q3
  let error_type : Option String := none
  let suggestions : List String := []
  let (error_type, suggestions) :=
    if has_difficulties then
      (some "general_difficulties", suggestions ++
        ["Check for page errors or unexpected elements",
         "Try refreshing the page or waiting for it to load completely"])
    else (error_type, suggestions)
  let (error_type, suggestions) :=
    if is_stuck_in_loop then
      (some "infinite_loop", suggestions ++
        ["Stop execution to prevent infinite loops",
         "Review the current step and try a different approach",
         "Check if the page requires different interaction"])
    else (error_type, suggestions)
  let (error_type, suggestions) :=
    if !can_proceed then
      (some "cannot_proceed", suggestions ++
        ["Current state prevents proceeding to next step",
         "Check for missing elements or blocked actions",
         "Wait for page to load completely before proceeding"])
    else (error_type, suggestions)
  ⟨has_difficulties, is_stuck_in_loop, can_proceed, error_type, suggestions⟩

/-- The fields of a micro-step dictionary that
`_execute_steps_with_error_detection` reads (nova_act_agent.py lines 330-334),
with the source's `.get` defaults applied. -/
structure MicroStep where
  instruction : String
  step_number : Nat
  nova_act_type : String
  timeout_seconds : Nat
  retry_count : Nat
  deriving Repr, DecidableEq

/-- The record built by `NovaActExecutionSummary.__init__` (nova_act_agent.py
lines 69-101); also the shape of the dictionaries returned by
`_execute_nova_act_sync` and `execute_execution_plan`. -/
structure NovaActExecutionSummary where
  status : String
  message : String
  session_id : String
  completed_steps : List NovaActExecutionResult
  failed_step : Option NovaActExecutionResult
  error_detection : Option NovaActErrorDetection
  success_count : Nat
  failed_count : Nat
  requires_human : Bool
  suggestions : List String
  deriving Repr, DecidableEq

/-- Behaviour of one loop iteration's `try` body in
`_execute_steps_with_error_detection`: either `_execute_step_with_retry`
returns a result record (`ok` — it cannot itself raise), or something in the
iteration raises (`exn`, handled by the `except Exception` clause at lines
378-400). -/
inductive StepRun where
  | ok (r : NovaActExecutionResult)
  | exn (msg : String)
  deriving Repr, DecidableEq

/-- The final-status tally at the end of `_execute_steps_with_error_detection`
(nova_act_agent.py lines 402-426). -/
def finalSummary (total_steps : Nat) (session_id : String)
    (completed_steps : List NovaActExecutionResult) (success_count failed_count : Nat)
    (failed_step : Option NovaActExecutionResult) : NovaActExecutionSummary :=
  if failed_count = 0 then
    ⟨"success", s!"Successfully executed all {total_steps} micro-steps", session_id,
      completed_steps, failed_step, none, success_count, failed_count, false, []⟩
  else if success_count > 0 then
    ⟨"partial",
      s!"Executed {total_steps} micro-steps: {success_count} successful, {failed_count} failed",
      session_id, completed_steps, failed_step, none, success_count, failed_count,
      true, []⟩
  else
    ⟨"failed", s!"Failed to execute any of the {total_steps} micro-steps", session_id,
      completed_steps, failed_step, none, success_count, failed_count, true, []⟩

/-- The `for step in micro_steps` loop of `_execute_steps_with_error_detection`
(nova_act_agent.py lines 328-400).  `run i` is the behaviour of iteration `i`'s
step execution; `answers i` gives the actuator's three BOOL_SCHEMA answers for
the error-detection call performed after a failure in iteration `i` (at most
one such call happens per iteration).  A failed step whose detection reports
difficulties or a loop causes the early `return` at lines 360-371; an exception
whose detection reports a loop causes the `break` at line 400. -/
def executeStepsGo (run : Nat → StepRun) (answers : Nat → DetectionAnswers)
    (session_id : String) (total_steps : Nat) :
    List MicroStep → Nat → List NovaActExecutionResult → Nat → Nat →
    Option NovaActExecutionResult → NovaActExecutionSummary
  | [], _, completed_steps, success_count, failed_count, failed_step =>
    finalSummary total_steps session_id completed_steps success_count failed_count
      failed_step
  | step :: rest, i, completed_steps, success_count, failed_count, failed_step =>
    match run i with
    | .ok execution_result =>
      let completed_steps := completed_steps ++ [execution_result]
      if execution_result.status == "success" then
        executeStepsGo run answers session_id total_steps rest (i + 1)
          completed_steps (success_count + 1) failed_count failed_step
      else
        let failed_count := failed_count + 1
        let failed_step := some execution_result
        let error_detection := detect_errors_with_bool_schema (answers i)
        if error_detection.has_difficulties || error_detection.is_stuck_in_loop then
          ⟨"failed",
            s!"Execution stopped due to error detection at step {step.step_number}",
            session_id, completed_steps, failed_step, some error_detection,
            success_count, failed_count, true, error_detection.suggestions⟩
        else
          executeStepsGo run answers session_id total_steps rest (i + 1)
            completed_steps success_count failed_count failed_step
    | .exn msg =>
      let execution_result : NovaActExecutionResult :=
        ⟨step.instruction, "failed", "", some msg, 0⟩
      let completed_steps := completed_steps ++ [execution_result]
      let failed_count := failed_count + 1
      let failed_step := some execution_result
      let error_detection := detect_errors_with_bool_schema (answers i)
      if error_detection.is_stuck_in_loop then
        finalSummary total_steps session_id completed_steps success_count
          failed_count failed_step
      else
        executeStepsGo run answers session_id total_steps rest (i + 1)
          completed_steps success_count failed_count failed_step

/-- Embedding of `NovaActAgent._execute_steps_with_error_detection` (nova_act_agent.py lines
314-426), with the per-iteration step execution and error-detection answers
supplied as oracles. -/
def execute_steps_with_error_detection (run : Nat → StepRun)
    (answers : Nat → DetectionAnswers) (session_id : String)
    (micro_steps : List MicroStep) : NovaActExecutionSummary :=
  executeStepsGo run answers session_id micro_steps.length micro_steps 0 [] 0 0 none

/-- The timeout passed to `future.result` in `execute_execution_plan`
(nova_act_agent.py line 278): 5 minutes. -/
def executionTimeoutSeconds : Nat := 300

/-- Behaviour of the worker thread running `_execute_nova_act_sync` inside
`execute_execution_plan`: the `future.result(timeout=300)` call either returns
the summary, raises `concurrent.futures.TimeoutError` after
`executionTimeoutSeconds` seconds, or re-raises another exception. -/
inductive FutureOutcome where
  | completed (r : NovaActExecutionSummary)
  | timedOut
  | raised (msg : String)
  deriving Repr, DecidableEq

/-- Embedding of `NovaActAgent.execute_execution_plan` (nova_act_agent.py lines 257-312).
`is_async_context` is the result of `_check_asyncio_context`; `threadOutcome`
is the worker thread's behaviour when one is used; `syncRun` is the summary
`_execute_nova_act_sync` returns when called directly; `session_id_field` is
the plan's `session_id` entry (`none` when absent, defaulted to "unknown"). -/
def execute_execution_plan (is_async_context : Bool) (threadOutcome : FutureOutcome)
    (syncRun : NovaActExecutionSummary) (session_id_field : Option String) :
    NovaActExecutionSummary :=
  if is_async_context then
    match threadOutcome with
    | .completed r => r
    | .timedOut =>
      ⟨"error", "Execution timed out after 5 minutes",
        session_id_field.getD "unknown", [], none, none, 0, 1, true,
        ["Task took too long, try with simpler steps"]⟩
    | .raised msg =>
      ⟨"error", s!"Thread execution failed: {msg}",
        session_id_field.getD "unknown", [], none, none, 0, 1, true,
        ["Check browser connection and try again"]⟩
  else syncRun

/-- An execution plan as passed between the automation agent, the coordinator
and the Nova Act agent; only the fields the modelled control flow inspects. -/
structure ExecutionPlan where
  session_id : String
  target_website : String
  micro_steps : List MicroStep
  deriving Repr, DecidableEq

/-- The fields of the automation task dictionary the modelled control flow
reads; the research/validation payload only flows into LLM-backed oracles. -/
structure AutomationTask where
  task_description : String
  target_website : String
  deriving Repr, DecidableEq

/-- Outcome of `AutomationAgent.generate_execution_plan` (a CrewAI/LLM-backed
call, modelled as an oracle outcome): a plan on `status == "success"`,
otherwise a failure message. -/
inductive GenPlanResult where
  | success (plan : ExecutionPlan)
  | failure (message : String)
  deriving Repr, DecidableEq

/-- The processed-result dictionary returned by
`AutomationAgent.process_nova_act_result` and `_improve_and_retry_plan`; the
embedded `nova_act_result` echo is not modelled (nothing reads it back). -/
structure ProcessedResult where
  status : String
  message : String
  action : String
  requires_human : Bool
  tutorial : Option String
  improved_execution_plan : Option ExecutionPlan
  deriving Repr, DecidableEq

/-- Error categories `_can_improve_plan` treats as improvable
(automation_agent.py lines 1031-1036). -/
def improvable_errors : List String :=
  ["general_difficulties", "cannot_proceed", "timeout", "element_not_found"]

/-- Error categories `_can_improve_plan` never retries
(automation_agent.py lines 1039-1045). -/
def non_improvable_errors : List String :=
  ["infinite_loop", "authentication_required", "captcha_required",
   "payment_required", "permission_denied"]

/-- Keywords scanned in suggestions by `_can_improve_plan`
(automation_agent.py lines 1054-1056). -/
def improvement_keywords : List String :=
  ["try", "retry", "different", "alternative", "modify", "adjust", "change"]

/-- Embedding of `AutomationAgent._can_improve_plan` (automation_agent.py lines 1019-1062):
the non-improvable check runs first, then the improvable list, then a keyword
scan of the suggestions. -/
def can_improve_plan (error_type : String) (suggestions : List String) : Bool :=
  if non_improvable_errors.contains error_type then false
  else if improvable_errors.contains error_type then true
  else
    suggestions.any (fun s =>
      improvement_keywords.any (fun k => strContains (strLower s) k))

/-- Embedding of `AutomationAgent._improve_and_retry_plan` (automation_agent.py lines
892-949).  `genPlan` is the LLM-backed composition of `_create_improved_task`
and `generate_execution_plan`; `tutorialGen` models the LLM-backed
`_generate_tutorial_from_validator` (arguments: task, error category,
suggestions). -/
def improve_and_retry_plan
    (genPlan : AutomationTask → NovaActExecutionSummary → List String → GenPlanResult)
    (tutorialGen : AutomationTask → String → List String → String)
    (original_task : AutomationTask) (nova_act_result : NovaActExecutionSummary)
    (suggestions : List String) : ProcessedResult :=
  match genPlan original_task nova_act_result suggestions with
  | .failure _ =>
    ⟨"tutorial", "Unable to improve the plan. Here's a tutorial to help you:",
      "return_tutorial", true,
      some (tutorialGen original_task "improvement_failed" suggestions), none⟩
  | .success improved_execution_plan =>
    ⟨"retry", "Plan improved successfully. Retrying with enhanced execution plan.",
      "improve_and_retry", false, none, some improved_execution_plan⟩

/-- Embedding of `AutomationAgent.process_nova_act_result` (automation_agent.py lines
814-890): report success, improve-and-retry, or emit a tutorial.
`error_detection = none` models a missing or empty (falsy) dictionary entry. -/
def process_nova_act_result
    (genPlan : AutomationTask → NovaActExecutionSummary → List String → GenPlanResult)
    (tutorialGen : AutomationTask → String → List String → String)
    (nova_act_result : NovaActExecutionSummary) (original_task : AutomationTask) :
    ProcessedResult :=
  if nova_act_result.status == "success" && !nova_act_result.requires_human then
    ⟨"success", "Automation completed successfully!", "inform_user", false, none, none⟩
  else if nova_act_result.status == "partial" || nova_act_result.status == "failed" then
    match nova_act_result.error_detection with
    | some error_detection =>
      let error_type := error_detection.error_type.getD "unknown"
      let can_improve := can_improve_plan error_type nova_act_result.suggestions
      if can_improve && !error_detection.is_stuck_in_loop then
        improve_and_retry_plan genPlan tutorialGen original_task nova_act_result
          nova_act_result.suggestions
      else
        ⟨"tutorial", "Unable to complete automation. Here's a tutorial to help you:",
          "return_tutorial", true,
          some (tutorialGen original_task error_type nova_act_result.suggestions),
          none⟩
    | none =>
      ⟨"tutorial", "Automation failed. Here's a tutorial to help you:",
        "return_tutorial", true,
        some (tutorialGen original_task "general_failure" nova_act_result.suggestions),
        none⟩
  else
    ⟨"tutorial", "Automation failed. Here's a tutorial to help you:",
      "return_tutorial", true,
      some (tutorialGen original_task "general_failure" nova_act_result.suggestions),
      none⟩

/-- The fields of the coordinator's terminal response that the modelled control
flow produces (coordinator_agent.py lines 730-818); context echoes
(`intent_analysis`, `nova_act_result`, ...) are not modelled. -/
structure CoordinatorResult where
  status : String
  message : String
  requires_human : Bool
  tutorial : Option String
  deriving Repr, DecidableEq

/-- Stages 2-3 of `CoordinatorAgent._intelligent_process_request`
(coordinator_agent.py lines 712-818): execute the generated plan, process the
result with the automation agent, and on an `improve_and_retry` action execute
the improved plan exactly once, mapping the retry's processed action to a
terminal response.  `execPlan` is the Nova Act agent's
`execute_execution_plan`, modelled as an oracle from plans to summaries.
Besides the terminal response it returns the list of plans handed to
`execPlan`, in order, so that the number of executions is observable. -/
def coordinator_stage_2_3
    (execPlan : ExecutionPlan → NovaActExecutionSummary)
    (genPlan : AutomationTask → NovaActExecutionSummary → List String → GenPlanResult)
    (tutorialGen : AutomationTask → String → List String → String)
    (automation_task : AutomationTask) (execution_plan : ExecutionPlan) :
    CoordinatorResult × List ExecutionPlan :=
  let nova_act_result := execPlan execution_plan
  let processed_result :=
    process_nova_act_result genPlan tutorialGen nova_act_result automation_task
  if processed_result.action == "improve_and_retry" then
    match processed_result.improved_execution_plan with
    | none =>
      (⟨"error", "Failed to get improved execution plan from automation agent",
        true, none⟩, [execution_plan])
    | some improved_execution_plan =>
      let retry_nova_act_result := execPlan improved_execution_plan
      let retry_processed_result :=
        process_nova_act_result genPlan tutorialGen retry_nova_act_result
          automation_task
      if retry_processed_result.action == "inform_user" then
        (⟨"success", "Automation completed successfully after plan improvement!",
          false, none⟩, [execution_plan, improved_execution_plan])
      else if retry_processed_result.action == "return_tutorial" then
        (⟨"tutorial",
          "Automation failed even after plan improvement. Here's a tutorial to help you:",
          true, retry_processed_result.tutorial⟩,
          [execution_plan, improved_execution_plan])
      else
        (⟨"partial",
          "Automation partially completed after one improvement attempt. Further improvement needed.",
          true, none⟩, [execution_plan, improved_execution_plan])
  else if processed_result.action == "return_tutorial" then
    (⟨"tutorial", processed_result.message, true, processed_result.tutorial⟩,
      [execution_plan])
  else
    (⟨processed_result.status, processed_result.message,
      processed_result.requires_human, none⟩, [execution_plan])

/-- The keyword scan of `_is_step_successful` is inconclusive: the response
attribute is missing/empty, or the response contains neither a success keyword
nor a failure keyword. -/
def KeywordInconclusive (result : ActResponse) : Prop :=
  optTruthy result.response = false ∨
    (containsAny (strLower (result.response.getD ""))
        ["success", "completed", "done", "finished"] = false ∧
      containsAny (strLower (result.response.getD ""))
        ["error", "failed", "cannot", "unable"] = false)

/-- C6 counterexample.  Three concrete classifications contradicting the claim:
a `navigate` step whose actuator call returned normally is classified failed
(its response contains "error", and the keyword scan precedes the category
rule); a response containing the claimed outcome keyword "submitted" is
classified failed for an `input` step; and an empty-response result whose text
contains the claimed failure keyword "invalid" is classified success (the code
only scans the response attribute for keywords, and its failure list has no
"invalid"). -/
theorem is_step_successful_contradicts_claimed_keywords :
    is_step_successful ⟨some "error: access denied", none, ""⟩
        "error: access denied" "navigate" = false
    ∧ is_step_successful ⟨some "form submitted", none, ""⟩
        "form submitted" "input" = false
    ∧ is_step_successful ⟨none, none, "invalid entry"⟩
        "invalid entry" "general" = true := by
  decide

/-- C6 (amended): classification of a step attempt.  The response attribute,
when non-empty, is scanned first for the success keywords
{"success","completed","done","finished"} and then the failure keywords
{"error","failed","cannot","unable"}; only when that scan is inconclusive does
the action category decide: `navigate` succeeds unconditionally, `click`
succeeds exactly when the result text lacks "error", `input` succeeds exactly
when the result text contains "entered" or "filled", and any other category
succeeds exactly when the result text lacks both "error" and "failed".  There
is no non-emptiness requirement on the text and no "submitted", "processed",
"invalid" or "rejected" keyword. -/
theorem is_step_successful_characterization (result : ActResponse)
    (result_text nova_act_type : String) :
    (optTruthy result.response = true →
      containsAny (strLower (result.response.getD ""))
          ["success", "completed", "done", "finished"] = true →
      is_step_successful result result_text nova_act_type = true)
    ∧ (optTruthy result.response = true →
      containsAny (strLower (result.response.getD ""))
          ["success", "completed", "done", "finished"] = false →
      containsAny (strLower (result.response.getD ""))
          ["error", "failed", "cannot", "unable"] = true →
      is_step_successful result result_text nova_act_type = false)
    ∧ (KeywordInconclusive result → nova_act_type = "navigate" →
      is_step_successful result result_text nova_act_type = true)
    ∧ (KeywordInconclusive result → nova_act_type = "click" →
      is_step_successful result result_text nova_act_type =
        !(strContains (strLower result_text) "error"))
    ∧ (KeywordInconclusive result → nova_act_type = "input" →
      is_step_successful result result_text nova_act_type =
        (strContains (strLower result_text) "entered" ||
          strContains (strLower result_text) "filled"))
    ∧ (KeywordInconclusive result → nova_act_type ≠ "navigate" →
      nova_act_type ≠ "click" → nova_act_type ≠ "input" →
      is_step_successful result result_text nova_act_type =
        (!(strContains (strLower result_text) "error") &&
          !(strContains (strLower result_text) "failed"))) := by
  refine ⟨?_, ?_, ?_, ?_, ?_, ?_⟩
  · intro ht hs
    simp [is_step_successful, ht, hs]
  · intro ht hs hf
    simp [is_step_successful, ht, hs, hf]
  · intro hinc hty
    rcases hinc with h | ⟨hs, hf⟩
    · simp [is_step_successful, h, hty]
    · simp [is_step_successful, hs, hf, hty]
  · intro hinc hty
    rcases hinc with h | ⟨hs, hf⟩
    · simp [is_step_successful, h, hty]
    · simp [is_step_successful, hs, hf, hty]
  · intro hinc hty
    rcases hinc with h | ⟨hs, hf⟩
    · simp [is_step_successful, h, hty]
    · simp [is_step_successful, hs, hf, hty]
  · intro hinc h1 h2 h3
    rcases hinc with h | ⟨hs, hf⟩
    · simp [is_step_successful, h, h1, h2, h3]
    · simp [is_step_successful, hs, hf, h1, h2, h3]

/-- C6 witness: the characterization applied to a concrete `click` result with
an inconclusive response. -/
theorem is_step_successful_characterization_witness :
    is_step_successful ⟨some "ok then", none, ""⟩ "clicked the blue banner" "click" =
      !(strContains (strLower "clicked the blue banner") "error") :=
  (is_step_successful_characterization ⟨some "ok then", none, ""⟩
      "clicked the blue banner" "click").2.2.2.1 (Or.inr (by decide)) rfl

/-- Actuator behaviour for the C2 scenario: the instruction fails on attempts
1 and 2 (0-based attempts 0 and 1) and succeeds on attempt 3 (0-based 2). -/
def c2Acts : Nat → AttemptOutcome := fun i =>
  if i < 2 then .res ⟨some "error on page", none, ""⟩
  else .res ⟨some "success", none, ""⟩

/-- C2 counterexample.  With `retry_count = 2` the loop
`for attempt in range(retry_count + 1)` makes three attempts, so the successful
third attempt does count: the step's final status is `"success"`, not
`"failed"` as claimed. -/
theorem retry_budget_two_third_attempt_counts :
    (execute_step_with_retry c2Acts "click the submit button" "click" 2).1.status
        = "success"
    ∧ (execute_step_with_retry c2Acts "click the submit button" "click" 2).1.status
        ≠ "failed" := by
  decide

/-- C2 (amended): a step's `retry_count` budget counts retries after the first
attempt, so a budget of 2 allows three attempts in total; an instruction
failing (as classified by `_is_step_successful`) on attempts 1 and 2 and
succeeding on attempt 3 yields a final `"success"` result recording the
successful 0-based attempt index 2. -/
theorem retry_budget_two_succeeds_on_third_attempt
    (acts : Nat → AttemptOutcome) (instruction nova_act_type : String)
    (r0 r1 r2 : ActResponse)
    (h0 : acts 0 = .res r0) (h1 : acts 1 = .res r1) (h2 : acts 2 = .res r2)
    (f0 : is_step_successful r0 (result_text_of r0) nova_act_type = false)
    (f1 : is_step_successful r1 (result_text_of r1) nova_act_type = false)
    (s2 : is_step_successful r2 (result_text_of r2) nova_act_type = true) :
    (execute_step_with_retry acts instruction nova_act_type 2).1 =
      ⟨instruction, "success", result_text_of r2, none, 2⟩ := by
  simp [execute_step_with_retry, stepRetryGo, h0, h1, h2, f0, f1, s2]

/-- C2 witness: the amended theorem applied to the concrete C2 scenario. -/
theorem retry_budget_two_succeeds_on_third_attempt_witness :
    (execute_step_with_retry c2Acts "click the submit button" "click" 2).1 =
      ⟨"click the submit button", "success",
        result_text_of ⟨some "success", none, ""⟩, none, 2⟩ :=
  retry_budget_two_succeeds_on_third_attempt c2Acts "click the submit button"
    "click" ⟨some "error on page", none, ""⟩ ⟨some "error on page", none, ""⟩
    ⟨some "success", none, ""⟩ rfl rfl rfl (by decide) (by decide) (by decide)

/-- Actuator behaviour for the C7 scenario: the first attempt fails, the second
succeeds. -/
def c7Acts : Nat → AttemptOutcome := fun i =>
  if i == 0 then .res ⟨some "error happened", none, ""⟩
  else .res ⟨some "success", none, ""⟩

/-- C7 counterexample.  In a run with one retry, the trace of effects is: act
with the original instruction, sleep 2 seconds, act again with the *unmodified*
original instruction — contradicting the claim that the retry instruction is
always a mutated instruction (no edge-case recovery or generic-suffix mechanism
exists in the code). -/
theorem retry_reuses_unmodified_instruction :
    (execute_step_with_retry c7Acts "fill in the name field" "general" 2).2 =
      [.act 0 "fill in the name field", .sleep 2, .act 1 "fill in the name field"] := by
  decide

/-- Helper for C7: every effect of the retry loop, from any starting attempt
and fuel, is an actuator call with the unmodified step instruction or a fixed
2-second sleep. -/
theorem stepRetryGo_trace_shape (acts : Nat → AttemptOutcome)
    (instruction nova_act_type : String) (retry_count : Nat) :
    ∀ fuel attempt e,
      e ∈ (stepRetryGo acts instruction nova_act_type retry_count attempt fuel).2 →
      (∃ k, e = .act k instruction) ∨ e = .sleep 2 := by
  intro fuel
  induction fuel with
  | zero => intro attempt e he; simp [stepRetryGo] at he
  | succ n ih =>
    intro attempt e he
    simp only [stepRetryGo] at he
    cases hact : acts attempt with
    | exn msg =>
      rw [hact] at he
      by_cases hlt : attempt < retry_count
      · simp [hlt] at he
        rcases he with h | h | h
        · exact Or.inl ⟨attempt, h⟩
        · exact Or.inr h
        · exact ih (attempt + 1) e h
      · simp [hlt] at he
        exact Or.inl ⟨attempt, he⟩
    | res r =>
      rw [hact] at he
      by_cases hsucc : is_step_successful r (result_text_of r) nova_act_type = true
      · simp [hsucc] at he
        exact Or.inl ⟨attempt, he⟩
      · by_cases hlt : attempt < retry_count
        · simp [hsucc, hlt] at he
          rcases he with h | h | h
          · exact Or.inl ⟨attempt, h⟩
          · exact Or.inr h
          · exact ih (attempt + 1) e h
        · simp [hsucc, hlt] at he
          exact Or.inl ⟨attempt, he⟩

/-- C7 (amended): on a failure with attempts remaining the step runner sleeps a
fixed 2-second backoff and then re-invokes the actuator with the *unmodified*
original instruction — every actuator call in any run's trace carries exactly
the step's original instruction, and every sleep is exactly 2 seconds; no
instruction mutation mechanism exists. -/
theorem retry_trace_only_original_instruction_and_2s_sleeps
    (acts : Nat → AttemptOutcome) (instruction nova_act_type : String)
    (retry_count : Nat) :
    ∀ e ∈ (execute_step_with_retry acts instruction nova_act_type retry_count).2,
      (∃ k, e = .act k instruction) ∨ e = .sleep 2 := by
  intro e he
  exact stepRetryGo_trace_shape acts instruction nova_act_type retry_count
    (retry_count + 1) 0 e he

/-- C7 witness: the amended theorem applied to the concrete retry event of the
C7 scenario. -/
theorem retry_trace_only_original_instruction_witness :
    (∃ k, (StepEvent.act 1 "fill in the name field") =
        StepEvent.act k "fill in the name field")
    ∨ (StepEvent.act 1 "fill in the name field") = StepEvent.sleep 2 :=
  retry_trace_only_original_instruction_and_2s_sleeps c7Acts
    "fill in the name field" "general" 2 (.act 1 "fill in the name field")
    (by decide)

/-- Helper for C8: every exit of the retry loop carries status `"success"` or
`"failed"`. -/
theorem stepRetryGo_status (acts : Nat → AttemptOutcome)
    (instruction nova_act_type : String) (retry_count : Nat) :
    ∀ fuel attempt,
      (stepRetryGo acts instruction nova_act_type retry_count attempt fuel).1.status
          = "success"
      ∨ (stepRetryGo acts instruction nova_act_type retry_count attempt fuel).1.status
          = "failed" := by
  intro fuel
  induction fuel with
  | zero => intro attempt; simp [stepRetryGo]
  | succ n ih =>
    intro attempt
    simp only [stepRetryGo]
    cases hact : acts attempt with
    | exn msg =>
      by_cases hlt : attempt < retry_count
      · simpa [hlt] using ih (attempt + 1)
      · simp [hlt]
    | res r =>
      by_cases hsucc : is_step_successful r (result_text_of r) nova_act_type = true
      · simp [hsucc]
      · by_cases hlt : attempt < retry_count
        · simpa [hsucc, hlt] using ih (attempt + 1)
        · simp [hsucc, hlt]

/-- Helper for C8: when the actuator call raises on every attempt, the loop
runs out of attempts at index `retry_count` and returns the failed record built
by the final `except` branch. -/
theorem stepRetryGo_all_exn (acts : Nat → AttemptOutcome)
    (instruction nova_act_type : String) (retry_count : Nat) (msgs : Nat → String)
    (hexn : ∀ i, acts i = .exn (msgs i)) :
    ∀ fuel attempt, attempt + fuel = retry_count + 1 → 0 < fuel →
      (stepRetryGo acts instruction nova_act_type retry_count attempt fuel).1 =
        ⟨instruction, "failed", "",
          some s!"Step failed with exception after {retry_count + 1} attempts: {msgs retry_count}",
          retry_count⟩ := by
  intro fuel
  induction fuel with
  | zero => intro attempt _ hpos; exact absurd hpos (by simp)
  | succ n ih =>
    intro attempt hsum _
    simp only [stepRetryGo, hexn attempt]
    by_cases hlt : attempt < retry_count
    · have hn : 0 < n := by omega
      have hsum' : attempt + 1 + n = retry_count + 1 := by omega
      rw [if_pos hlt]
      exact ih (attempt + 1) hsum' hn
    · have hrc : attempt = retry_count := by omega
      rw [if_neg hlt]
      subst hrc
      rfl

/-- C8: step-level failures never cross the Step Runner boundary as exceptions.
`_execute_step_with_retry` always returns a result record whose status is
`"success"` or `"failed"`, and when the actuator call raises on every attempt
the exceptions are converted into a failed record carrying the last exception's
message. -/
theorem step_runner_never_raises (acts : Nat → AttemptOutcome)
    (instruction nova_act_type : String) (retry_count : Nat) :
    ((execute_step_with_retry acts instruction nova_act_type retry_count).1.status
        = "success"
      ∨ (execute_step_with_retry acts instruction nova_act_type retry_count).1.status
        = "failed")
    ∧ (∀ msgs : Nat → String, (∀ i, acts i = .exn (msgs i)) →
      (execute_step_with_retry acts instruction nova_act_type retry_count).1 =
        ⟨instruction, "failed", "",
          some s!"Step failed with exception after {retry_count + 1} attempts: {msgs retry_count}",
          retry_count⟩) := by
  constructor
  · exact stepRetryGo_status acts instruction nova_act_type retry_count
      (retry_count + 1) 0
  · intro msgs hexn
    have := stepRetryGo_all_exn acts instruction nova_act_type retry_count msgs
      hexn (retry_count + 1) 0 (by omega) (by omega)
    simp [execute_step_with_retry, this]

/-- C8 witness: an actuator that raises on both attempts of a budget-1 step
yields a failed record carrying the final exception message. -/
theorem step_runner_never_raises_witness :
    (execute_step_with_retry (fun i => .exn (s!"boom {i}")) "go to the portal"
        "general" 1).1 =
      ⟨"go to the portal", "failed", "",
        some "Step failed with exception after 2 attempts: boom 1", 1⟩ :=
  (step_runner_never_raises (fun i => .exn (s!"boom {i}")) "go to the portal"
      "general" 1).2 (fun i => s!"boom {i}") (fun _ => rfl)

/-- A BOOL_SCHEMA actuator answer whose parsed response is `False`. -/
def boolAnswerFalse : BoolActOutcome := .res ⟨true, some (some false), none⟩

/-- A BOOL_SCHEMA actuator answer whose parsed response is `True`. -/
def boolAnswerTrue : BoolActOutcome := .res ⟨true, some (some true), none⟩

/-- A single always-failing step execution, used by the detection scenarios. -/
def failingRun : Nat → StepRun := fun _ =>
  .ok ⟨"click the apply button", "failed", "", some "did not work", 0⟩

/-- C3 counterexample.  Two runs of the step-execution loop on the same steps
with the same recorded step attempts (identical step indices, instructions and
error messages) return different error-detection results, because the
detection queries the live actuator with three BOOL_SCHEMA questions and the
two runs' actuators answer differently: the detection is not a function of the
recorded history. -/
theorem error_detection_not_a_function_of_history :
    execute_steps_with_error_detection failingRun
        (fun _ => ⟨boolAnswerFalse, boolAnswerFalse, boolAnswerTrue⟩) "sess"
        [⟨"click the apply button", 1, "click", 30, 0⟩] ≠
      execute_steps_with_error_detection failingRun
        (fun _ => ⟨boolAnswerFalse, boolAnswerTrue, boolAnswerTrue⟩) "sess"
        [⟨"click the apply button", 1, "click", 30, 0⟩] := by
  decide

/-- C3 (amended): the detection result is a deterministic pure function of the
three BOOL_SCHEMA responses the actuator returns at detection time (as
interpreted by `_safe_act_with_bool_schema`) — and of nothing else: any two
detection calls whose three interpreted answers agree return identical
`{has_difficulties, is_stuck_in_loop, can_proceed, error_type, suggestions}`
records, but the recorded history of step attempts is not an input at all. -/
theorem error_detection_determined_by_actuator_answers
    (a b : DetectionAnswers)
    (h1 : safe_act_with_bool_schema a.q1 = safe_act_with_bool_schema b.q1)
    (h2 : safe_act_with_bool_schema a.q2 = safe_act_with_bool_schema b.q2)
    (h3 : safe_act_with_bool_schema a.q3 = safe_act_with_bool_schema b.q3) :
    detect_errors_with_bool_schema a = detect_errors_with_bool_schema b := by
  simp only [detect_errors_with_bool_schema, h1, h2, h3]

/-- C3 witness: two syntactically different actuator answer triples that
interpret to the same booleans yield the same detection record. -/
theorem error_detection_determined_by_actuator_answers_witness :
    detect_errors_with_bool_schema
        ⟨boolAnswerFalse, boolAnswerTrue, boolAnswerTrue⟩ =
      detect_errors_with_bool_schema
        ⟨.res ⟨true, some none, none⟩, .res ⟨true, none, some "yes"⟩,
          .res ⟨true, some (some true), some "ignored"⟩⟩ :=
  error_detection_determined_by_actuator_answers
    ⟨boolAnswerFalse, boolAnswerTrue, boolAnswerTrue⟩
    ⟨.res ⟨true, some none, none⟩, .res ⟨true, none, some "yes"⟩,
      .res ⟨true, some (some true), some "ignored"⟩⟩
    (by decide) (by decide) (by decide)

/-- Three always-failing micro-steps for the C4 scenario. -/
def threeFailingSteps : List MicroStep :=
  [⟨"click the apply button", 1, "click", 30, 0⟩,
   ⟨"click the apply button", 2, "click", 30, 0⟩,
   ⟨"click the apply button", 3, "click", 30, 0⟩]

/-- C4 counterexample.  A run whose three most recent (indeed all) recorded
attempts are failures, yet no blackhole detection fires: the summary carries no
error-detection record at all (and the detection record type has no confidence
field), because the actuator's loop-question answer was `false` each time.
There is no consecutive-failure window rule in the code. -/
theorem three_consecutive_failures_without_detection :
    ((execute_steps_with_error_detection failingRun
        (fun _ => ⟨boolAnswerFalse, boolAnswerFalse, boolAnswerTrue⟩) "sess"
        threeFailingSteps).completed_steps.all
          (fun r => r.status == "failed")) = true
    ∧ (execute_steps_with_error_detection failingRun
        (fun _ => ⟨boolAnswerFalse, boolAnswerFalse, boolAnswerTrue⟩) "sess"
        threeFailingSteps).completed_steps.length = 3
    ∧ (execute_steps_with_error_detection failingRun
        (fun _ => ⟨boolAnswerFalse, boolAnswerFalse, boolAnswerTrue⟩) "sess"
        threeFailingSteps).error_detection = none := by
  decide

/-- C4 (amended): the engine has no consecutive-failure window rule and
produces no confidence value.  The stuck-in-a-loop flag of a detection equals
the actuator's interpreted BOOL_SCHEMA answer to the loop question (question
2), whatever the recorded attempts were; and after a failed step the execution
loop halts with a detection report exactly when the actuator answered yes to
the difficulties question or the loop question — not as a function of how many
recorded entries are failures. -/
theorem stuck_flag_equals_loop_question_answer :
    (∀ a : DetectionAnswers,
      (detect_errors_with_bool_schema a).is_stuck_in_loop =
        safe_act_with_bool_schema a.q2)
    ∧ (∀ (r : NovaActExecutionResult) (a : DetectionAnswers) (sid : String)
        (st : MicroStep), r.status ≠ "success" →
      (execute_steps_with_error_detection (fun _ => .ok r) (fun _ => a) sid
          [st]).error_detection =
        (if (detect_errors_with_bool_schema a).has_difficulties ||
            (detect_errors_with_bool_schema a).is_stuck_in_loop then
          some (detect_errors_with_bool_schema a)
        else none)) := by
  constructor
  · intro a; rfl
  · intro r a sid st hr
    have hb : (r.status == "success") = false := by
      simpa using hr
    simp only [execute_steps_with_error_detection, executeStepsGo, hb,
      Bool.false_eq_true, if_false]
    by_cases hd : (detect_errors_with_bool_schema a).has_difficulties ||
        (detect_errors_with_bool_schema a).is_stuck_in_loop
    · simp [hd]
    · simp [hd, executeStepsGo, finalSummary]

/-- C4 witness: the amended theorem's halt characterization applied to the
concrete failing attempt of the C4 scenario. -/
theorem stuck_flag_equals_loop_question_answer_witness :
    (execute_steps_with_error_detection
        (fun _ => .ok ⟨"click the apply button", "failed", "", some "did not work", 0⟩)
        (fun _ => ⟨boolAnswerFalse, boolAnswerTrue, boolAnswerTrue⟩) "sess"
        [⟨"click the apply button", 1, "click", 30, 0⟩]).error_detection =
      (if (detect_errors_with_bool_schema
            ⟨boolAnswerFalse, boolAnswerTrue, boolAnswerTrue⟩).has_difficulties ||
          (detect_errors_with_bool_schema
            ⟨boolAnswerFalse, boolAnswerTrue, boolAnswerTrue⟩).is_stuck_in_loop then
        some (detect_errors_with_bool_schema
          ⟨boolAnswerFalse, boolAnswerTrue, boolAnswerTrue⟩)
      else none) :=
  stuck_flag_equals_loop_question_answer.2
    ⟨"click the apply button", "failed", "", some "did not work", 0⟩
    ⟨boolAnswerFalse, boolAnswerTrue, boolAnswerTrue⟩ "sess"
    ⟨"click the apply button", 1, "click", 30, 0⟩ (by decide)

/-- Counting a predicate and its negation over a list covers the list. -/
theorem countP_add_countP_not (l : List NovaActExecutionResult)
    (p : NovaActExecutionResult → Bool) :
    l.countP p + l.countP (fun r => !(p r)) = l.length := by
  induction l with
  | nil => simp
  | cons a t ih =>
    by_cases h : p a = true <;> simp [List.countP_cons, h] <;> omega

/-- The consistency facts C10 asserts of an execution summary. -/
def SummaryConsistent (s : NovaActExecutionSummary) : Prop :=
  s.success_count = s.completed_steps.countP (fun r => r.status == "success")
  ∧ s.failed_count = s.completed_steps.countP (fun r => !(r.status == "success"))
  ∧ s.success_count + s.failed_count = s.completed_steps.length
  ∧ (s.status = "success" ↔ s.failed_count = 0)
  ∧ (s.failed_count = 0 → s.requires_human = false)

/-- The final tally of the step loop is consistent whenever the counters it is
handed match the accumulated step records. -/
theorem finalSummary_consistent (total : Nat) (sid : String)
    (completed : List NovaActExecutionResult) (sc fc : Nat)
    (fs : Option NovaActExecutionResult)
    (hsc : sc = completed.countP (fun r => r.status == "success"))
    (hfc : fc = completed.countP (fun r => !(r.status == "success"))) :
    SummaryConsistent (finalSummary total sid completed sc fc fs) := by
  have hlen : sc + fc = completed.length := by
    rw [hsc, hfc]; exact countP_add_countP_not completed _
  unfold finalSummary SummaryConsistent
  by_cases h0 : fc = 0
  · rw [if_pos h0]
    exact ⟨hsc, hfc, hlen, ⟨fun _ => h0, fun _ => rfl⟩, fun _ => rfl⟩
  · rw [if_neg h0]
    by_cases hp : sc > 0
    · rw [if_pos hp]
      exact ⟨hsc, hfc, hlen,
        ⟨fun h => absurd h (by simp), fun h => absurd h h0⟩,
        fun h => absurd h h0⟩
    · rw [if_neg hp]
      exact ⟨hsc, hfc, hlen,
        ⟨fun h => absurd h (by simp), fun h => absurd h h0⟩,
        fun h => absurd h h0⟩

/-- The step loop preserves summary consistency from any consistent
accumulator state. -/
theorem executeStepsGo_consistent (run : Nat → StepRun)
    (answers : Nat → DetectionAnswers) (sid : String) (total : Nat) :
    ∀ (steps : List MicroStep) (i : Nat)
      (completed : List NovaActExecutionResult) (sc fc : Nat)
      (fs : Option NovaActExecutionResult),
      sc = completed.countP (fun r => r.status == "success") →
      fc = completed.countP (fun r => !(r.status == "success")) →
      SummaryConsistent (executeStepsGo run answers sid total steps i completed sc fc fs) := by
  intro steps
  induction steps with
  | nil =>
    intro i completed sc fc fs hsc hfc
    exact finalSummary_consistent total sid completed sc fc fs hsc hfc
  | cons step rest ih =>
    intro i completed sc fc fs hsc hfc
    simp only [executeStepsGo]
    cases hrun : run i with
    | ok r =>
      by_cases hst : (r.status == "success") = true
      · simp only [hst, if_true]
        refine ih (i + 1) (completed ++ [r]) (sc + 1) fc fs ?_ ?_
        · simp [List.countP_append, List.countP_cons, hst, hsc]
        · simp [List.countP_append, List.countP_cons, hst, hfc]
      · simp only [hst, if_false, Bool.false_eq_true]
        have hsc' : sc = (completed ++ [r]).countP (fun r => r.status == "success") := by
          simp [List.countP_append, List.countP_cons, hst, hsc]
        have hfc' : fc + 1 = (completed ++ [r]).countP
            (fun r => !(r.status == "success")) := by
          simp [List.countP_append, List.countP_cons, hst, hfc]
        by_cases hd : ((detect_errors_with_bool_schema (answers i)).has_difficulties ||
            (detect_errors_with_bool_schema (answers i)).is_stuck_in_loop) = true
        · simp only [hd, if_true]
          have hlen : sc + (fc + 1) = (completed ++ [r]).length := by
            rw [hsc', hfc']; exact countP_add_countP_not _ _
          refine ⟨hsc', hfc', hlen, ?_, ?_⟩
          · show ("failed" : String) = "success" ↔ fc + 1 = 0
            exact ⟨fun h => absurd h (by simp), fun h => absurd h (Nat.succ_ne_zero fc)⟩
          · show fc + 1 = 0 → (true : Bool) = false
            exact fun h => absurd h (Nat.succ_ne_zero fc)
        · simp only [hd, if_false, Bool.false_eq_true]
          exact ih (i + 1) (completed ++ [r]) sc (fc + 1) (some r) hsc' hfc'
    | exn msg =>
      have hst : ((⟨step.instruction, "failed", "", some msg, 0⟩ :
          NovaActExecutionResult).status == "success") = false := rfl
      have hsc' : sc = (completed ++ [(⟨step.instruction, "failed", "", some msg, 0⟩ :
          NovaActExecutionResult)]).countP (fun r => r.status == "success") := by
        simp [List.countP_append, List.countP_cons, hst, hsc]
      have hfc' : fc + 1 = (completed ++ [(⟨step.instruction, "failed", "", some msg, 0⟩ :
          NovaActExecutionResult)]).countP (fun r => !(r.status == "success")) := by
        simp [List.countP_append, List.countP_cons, hst, hfc]
      by_cases hd : (detect_errors_with_bool_schema (answers i)).is_stuck_in_loop = true
      · simp only [hd, if_true]
        exact finalSummary_consistent total sid _ sc (fc + 1) _ hsc' hfc'
      · simp only [hd, if_false, Bool.false_eq_true]
        exact ih (i + 1) _ sc (fc + 1) _ hsc' hfc'

/-- C10: every summary returned by the step-execution loop is internally
consistent — `success_count` counts the completed steps whose status is
`"success"`, `failed_count` counts those with any other status, the two
counters add up to the number of completed steps, the summary's status is
`"success"` exactly when `failed_count` is zero, and in that case
`requires_human` is false. -/
theorem execution_summary_counts_consistent (run : Nat → StepRun)
    (answers : Nat → DetectionAnswers) (sid : String) (steps : List MicroStep) :
    (execute_steps_with_error_detection run answers sid steps).success_count =
      (execute_steps_with_error_detection run answers sid
        steps).completed_steps.countP (fun r => r.status == "success")
    ∧ (execute_steps_with_error_detection run answers sid steps).failed_count =
      (execute_steps_with_error_detection run answers sid
        steps).completed_steps.countP (fun r => !(r.status == "success"))
    ∧ (execute_steps_with_error_detection run answers sid steps).success_count +
        (execute_steps_with_error_detection run answers sid steps).failed_count =
      (execute_steps_with_error_detection run answers sid
        steps).completed_steps.length
    ∧ ((execute_steps_with_error_detection run answers sid steps).status =
        "success" ↔
      (execute_steps_with_error_detection run answers sid steps).failed_count = 0)
    ∧ ((execute_steps_with_error_detection run answers sid steps).failed_count = 0 →
      (execute_steps_with_error_detection run answers sid steps).requires_human =
        false) :=
  executeStepsGo_consistent run answers sid steps.length steps 0 [] 0 0 none
    (by simp) (by simp)

/-- A placeholder synchronous-run summary for the C9 scenario. -/
def idleSummary : NovaActExecutionSummary :=
  ⟨"success", "ok", "sess", [], none, none, 0, 0, false, []⟩

/-- C9 counterexample.  When the worker thread exceeds the 5-minute bound, the
engine's terminal result has status `"error"` — not `"failed"` as claimed —
(with `requires_human = true`). -/
theorem plan_timeout_status_is_error_not_failed :
    (execute_execution_plan true .timedOut idleSummary (some "sess")).status
        = "error"
    ∧ (execute_execution_plan true .timedOut idleSummary (some "sess")).status
        ≠ "failed"
    ∧ (execute_execution_plan true .timedOut idleSummary (some "sess")).requires_human
        = true := by
  decide

/-- C9 (amended): the hard wall-clock bound on whole-plan execution is
`executionTimeoutSeconds = 300` seconds, and exceeding it yields a terminal
result with status `"error"` (not `"failed"`), `requires_human = true`, and an
empty `completed_steps` list. -/
theorem plan_timeout_terminal_result (syncRun : NovaActExecutionSummary)
    (session_id_field : Option String) :
    executionTimeoutSeconds = 300
    ∧ execute_execution_plan true .timedOut syncRun session_id_field =
      ⟨"error", "Execution timed out after 5 minutes",
        session_id_field.getD "unknown", [], none, none, 0, 1, true,
        ["Task took too long, try with simpler steps"]⟩ :=
  ⟨rfl, rfl⟩

/-- C5: for every terminal failure whose error category is unrecoverable
(`infinite_loop`, `authentication_required`, `captcha_required`,
`payment_required` or `permission_denied`), the result classifier never
chooses improve-and-retry: whatever improvement suggestions accompany the
failure, it returns a `return_tutorial` action with `requires_human = true`
and a tutorial artifact. -/
theorem unrecoverable_error_goes_to_tutorial
    (genPlan : AutomationTask → NovaActExecutionSummary → List String → GenPlanResult)
    (tutorialGen : AutomationTask → String → List String → String)
    (r : NovaActExecutionSummary) (task : AutomationTask)
    (ed : NovaActErrorDetection) (et : String)
    (hed : r.error_detection = some ed)
    (het : ed.error_type = some et)
    (hcat : non_improvable_errors.contains et = true)
    (hfail : ¬(r.status = "success" ∧ r.requires_human = false)) :
    (process_nova_act_result genPlan tutorialGen r task).action = "return_tutorial"
    ∧ (process_nova_act_result genPlan tutorialGen r task).action ≠ "improve_and_retry"
    ∧ (process_nova_act_result genPlan tutorialGen r task).requires_human = true
    ∧ (process_nova_act_result genPlan tutorialGen r task).tutorial.isSome = true := by
  have hcase1 : (r.status == "success" && !r.requires_human) = false := by
    by_cases h : (r.status == "success") = true
    · have hs : r.status = "success" := by simpa using h
      by_cases h2 : r.requires_human = true
      · simp [h, h2]
      · have h2' : r.requires_human = false := by
          simpa using h2
        exact absurd ⟨hs, h2'⟩ hfail
    · have h' : (r.status == "success") = false := by
        simpa using h
      simp [h']
  have hci : can_improve_plan et r.suggestions = false := by
    unfold can_improve_plan
    rw [if_pos hcat]
  have hgetd : ed.error_type.getD "unknown" = et := by rw [het]; rfl
  unfold process_nova_act_result
  rw [hcase1]
  simp only [Bool.false_eq_true, if_false]
  by_cases h2 : (r.status == "partial" || r.status == "failed") = true
  · rw [if_pos h2]
    simp only [hed]
    rw [hgetd, hci]
    refine ⟨by simp, ?_, by simp, by simp⟩
    simp only [Bool.false_and, Bool.false_eq_true, if_false]
    intro hcontra
    exact absurd hcontra (by decide)
  · rw [if_neg h2]
    exact ⟨rfl,
      fun hc => absurd hc
        (show ("return_tutorial" : String) ≠ "improve_and_retry" by decide),
      rfl, rfl⟩

/-- C5 witness: a failed run whose detection reports `authentication_required`
with retry-suggesting suggestions still goes to a tutorial. -/
theorem unrecoverable_error_goes_to_tutorial_witness :
    (process_nova_act_result (fun _ _ _ => .failure "no plan") (fun _ _ _ => "tutorial text")
        ⟨"failed", "m", "sess", [], none,
          some ⟨true, false, false, some "authentication_required", []⟩, 0, 1, true,
          ["try a different login approach"]⟩
        ⟨"renew my road tax", "https://www.myeg.com.my"⟩).action = "return_tutorial"
    ∧ (process_nova_act_result (fun _ _ _ => .failure "no plan") (fun _ _ _ => "tutorial text")
        ⟨"failed", "m", "sess", [], none,
          some ⟨true, false, false, some "authentication_required", []⟩, 0, 1, true,
          ["try a different login approach"]⟩
        ⟨"renew my road tax", "https://www.myeg.com.my"⟩).action ≠ "improve_and_retry"
    ∧ (process_nova_act_result (fun _ _ _ => .failure "no plan") (fun _ _ _ => "tutorial text")
        ⟨"failed", "m", "sess", [], none,
          some ⟨true, false, false, some "authentication_required", []⟩, 0, 1, true,
          ["try a different login approach"]⟩
        ⟨"renew my road tax", "https://www.myeg.com.my"⟩).requires_human = true
    ∧ (process_nova_act_result (fun _ _ _ => .failure "no plan") (fun _ _ _ => "tutorial text")
        ⟨"failed", "m", "sess", [], none,
          some ⟨true, false, false, some "authentication_required", []⟩, 0, 1, true,
          ["try a different login approach"]⟩
        ⟨"renew my road tax", "https://www.myeg.com.my"⟩).tutorial.isSome = true :=
  unrecoverable_error_goes_to_tutorial (fun _ _ _ => .failure "no plan")
    (fun _ _ _ => "tutorial text")
    ⟨"failed", "m", "sess", [], none,
      some ⟨true, false, false, some "authentication_required", []⟩, 0, 1, true,
      ["try a different login approach"]⟩
    ⟨"renew my road tax", "https://www.myeg.com.my"⟩
    ⟨true, false, false, some "authentication_required", []⟩ "authentication_required"
    rfl rfl (by decide) (by decide)

/-- C1: the engine performs at most one improve-and-retry cycle per
originating task.  In any run of the coordinator's execution stages, at most
two plans are ever handed to the Nova Act agent (the original and at most one
improved plan); and whenever the first terminal result leads to an
improve-and-retry with improved plan `p2` and the second execution's processed
action is again not a success report (`inform_user`), the run terminates with
`requires_human = true` after executing exactly `[plan, p2]` — a second
improve-and-retry is never issued. -/
theorem coordinator_single_replan_cycle
    (execPlan : ExecutionPlan → NovaActExecutionSummary)
    (genPlan : AutomationTask → NovaActExecutionSummary → List String → GenPlanResult)
    (tutorialGen : AutomationTask → String → List String → String)
    (task : AutomationTask) (plan : ExecutionPlan) :
    (coordinator_stage_2_3 execPlan genPlan tutorialGen task plan).2.length ≤ 2
    ∧ (∀ p2 : ExecutionPlan,
      (process_nova_act_result genPlan tutorialGen (execPlan plan) task).action
          = "improve_and_retry" →
      (process_nova_act_result genPlan tutorialGen (execPlan plan)
          task).improved_execution_plan = some p2 →
      (process_nova_act_result genPlan tutorialGen (execPlan p2) task).action
          ≠ "inform_user" →
      (coordinator_stage_2_3 execPlan genPlan tutorialGen task
          plan).1.requires_human = true
      ∧ (coordinator_stage_2_3 execPlan genPlan tutorialGen task plan).2
          = [plan, p2]) := by
  constructor
  · unfold coordinator_stage_2_3
    dsimp only
    split
    · split
      · simp
      · split
        · simp
        · split
          · simp
          · simp
    · split
      · simp
      · simp
  · intro p2 hact himp hretry
    have hrb : ((process_nova_act_result genPlan tutorialGen (execPlan p2)
        task).action == "inform_user") = false := by
      simpa using hretry
    unfold coordinator_stage_2_3
    simp only [hact, himp, hrb, beq_self_eq_true, if_true, Bool.false_eq_true,
      if_false]
    split
    · exact ⟨rfl, rfl⟩
    · exact ⟨rfl, rfl⟩

/-- The first-generation execution plan of the C1 witness scenario. -/
def c1Plan : ExecutionPlan := ⟨"sess0", "https://www.myeg.com.my", []⟩

/-- The improved plan the plan-generation oracle of the C1 witness returns. -/
def c1ImprovedPlan : ExecutionPlan := ⟨"sess1", "https://www.myeg.com.my", []⟩

/-- The terminal summary every execution returns in the C1 witness scenario: a
failure whose detection reports the improvable category `timeout`. -/
def c1FailSummary : NovaActExecutionSummary :=
  ⟨"failed", "step failed", "sess0", [], none,
    some ⟨false, false, true, some "timeout", []⟩, 0, 1, true, []⟩

/-- C1 witness: two consecutive failures, each of which the automation agent
would improve, terminate after exactly two executions with a human hand-off. -/
theorem coordinator_single_replan_cycle_witness :
    (coordinator_stage_2_3 (fun _ => c1FailSummary)
        (fun _ _ _ => .success c1ImprovedPlan) (fun _ _ _ => "tutorial text")
        ⟨"renew my road tax", "https://www.myeg.com.my"⟩
        c1Plan).1.requires_human = true
    ∧ (coordinator_stage_2_3 (fun _ => c1FailSummary)
        (fun _ _ _ => .success c1ImprovedPlan) (fun _ _ _ => "tutorial text")
        ⟨"renew my road tax", "https://www.myeg.com.my"⟩ c1Plan).2
      = [c1Plan, c1ImprovedPlan] :=
  (coordinator_single_replan_cycle (fun _ => c1FailSummary)
      (fun _ _ _ => .success c1ImprovedPlan) (fun _ _ _ => "tutorial text")
      ⟨"renew my road tax", "https://www.myeg.com.my"⟩ c1Plan).2
    c1ImprovedPlan (by decide) (by decide) (by decide)

end AI4AI
